import Mathlib

/-!
Shallow embedding of `src/airflow_dag_trigger.py`, a command-line tool that
triggers an Airflow DAG run and fetches the latest run's status.  The
side-effecting routines `trigger_dag` and `get_dag_status` are modelled as
pure functions from the outcome of their single HTTP request (and, for the
status routine, the wall-clock elapsed seconds) to a record of everything
observable: the printed lines, the carriage-return spinner writes, the
sleeps performed, the number of requests issued, and whether the routine
returns normally or calls `sys.exit`.
-/

/-- One entry of the `dag_runs` collection in the status response body, the
fields `get_dag_status` reads from `latest_run`. -/
structure DagRun where
  dag_run_id : String
  state : String
  execution_date : String
  deriving DecidableEq, Repr

/-- What the single `requests.get` in `get_dag_status` produces: an HTTP
response (status code, `response.text`, and the parsed `dag_runs` field of
the JSON body — `none` when the key is absent), or a raised exception with
its message. -/
inductive FetchResult where
  | ok (status : Nat) (bodyText : String) (dag_runs : Option (List DagRun))
  | exn (msg : String)
  deriving DecidableEq, Repr

/-- How a routine ends: a normal Python return (including falling off the
end of the function), or `sys.exit code`. -/
inductive ProcResult where
  | ret
  | exit (code : Nat)
  deriving DecidableEq, Repr

/-- Everything observable about one call of `get_dag_status`: `trace` the
printed lines in order, `spinnerWrites` the `sys.stdout.write`
carriage-return overwrites, `sleepsMs` each `time.sleep` in milliseconds,
`fetchCount` how many HTTP requests the call issues, and `result` how the
call ends. -/
structure StatusOutcome where
  trace : List String
  spinnerWrites : List String
  sleepsMs : List Nat
  fetchCount : Nat
  result : ProcResult
  deriving DecidableEq, Repr

/-- The ten braille spinner glyphs of `get_dag_status`. -/
def spinnerFrames : List String :=
  ["⠋", "⠙", "⠹", "⠸", "⠼", "⠴", "⠦", "⠧", "⠇", "⠏"]

/-- The line printed to clear the spinner: a carriage return, fifty spaces,
and a carriage return. -/
def clearLine : String :=
  "\r" ++ String.mk (List.replicate 50 ' ') ++ "\r"

/-- The elapsed-time portion of the final status line: the whole-second
count followed by a literal "s". -/
def elapsedPart (elapsed : Nat) : String :=
  toString elapsed ++ "s"

/-- The ten spinner overwrites for an observed state: frame `i` writes a
carriage return, glyph `spinner[i % len(spinner)]`, and " State: " with the
state. -/
def spinnerWritesFor (state : String) : List String :=
  (List.range 10).map fun i =>
    "\r" ++ spinnerFrames.getD (i % spinnerFrames.length) "" ++ " State: " ++ state

/-- Shallow embedding of `get_dag_status` (src/airflow_dag_trigger.py,
lines 74–114).  `dag_id` is the DAG id argument, `fetch` what the single
`requests.get` produces, and `elapsed` the whole-second value of
`datetime.now() - start_time` when the final line is printed.  A non-200
response or an exception prints a diagnostic and exits 1; a missing or
empty `dag_runs` collection prints a notice and returns; otherwise the
first run is reported after ten 0.3-second spinner frames. -/
def get_dag_status (dag_id : String) (fetch : FetchResult) (elapsed : Nat) :
    StatusOutcome :=
  let pre := ["Fetching latest DAG run status for '" ++ dag_id ++ "'..."]
  match fetch with
  | .exn msg =>
      ⟨pre ++ ["Error fetching DAG status: " ++ msg], [], [], 1, .exit 1⟩
  | .ok status bodyText runs? =>
      if status ≠ 200 then
        ⟨pre ++ ["Failed to retrieve DAG status: HTTP " ++ toString status,
                 bodyText],
         [], [], 1, .exit 1⟩
      else
        match runs? with
        | none =>
            ⟨pre ++ ["No DAG runs found for this DAG."], [], [], 1, .ret⟩
        | some [] =>
            ⟨pre ++ ["No DAG runs found for this DAG."], [], [], 1, .ret⟩
        | some (latest_run :: _) =>
            ⟨pre ++ [clearLine,
                     "DAG Run ID: " ++ latest_run.dag_run_id,
                     "Execution Date: " ++ latest_run.execution_date,
                     "Final Status: " ++ latest_run.state ++ " (elapsed: " ++
                       elapsedPart elapsed ++ ")"],
             spinnerWritesFor latest_run.state,
             List.replicate 10 300,
             1,
             .ret⟩

/-- The process exit code of status mode in `main` (lines 151–152) when the
call into `get_dag_status` executes the function body: `sys.exit c` ends the
process with code `c`, and a normal return falls to the end of `main`, so
the interpreter exits 0.  (In the shipped file the attribute lookup
`cli.get_dag_status` itself fails; see `resolveAttr`.) -/
def exitCodeOfStatusMode (dag_id : String) (fetch : FetchResult)
    (elapsed : Nat) : Nat :=
  match (get_dag_status dag_id fetch elapsed).result with
  | .ret => 0
  | .exit c => c

/-- The optional fields of the trigger response body that
`AirflowCLI.trigger_dag` reads: `none` models an absent key. -/
structure TriggerBody where
  dag_run_id : Option String
  state : Option String
  deriving DecidableEq, Repr

/-- Everything observable about one call of `AirflowCLI.trigger_dag`:
the printed lines, the extracted locals `dag_run_id` and `state` of the
success branch (as `runId` and `runState`), the number of HTTP requests
issued, and how the call ends. -/
structure TriggerOutcome where
  trace : List String
  runId : Option String
  runState : Option String
  requestCount : Nat
  result : ProcResult
  deriving DecidableEq, Repr

/-- Shallow embedding of `AirflowCLI.trigger_dag` (lines 52–72): `status`,
`body` and `bodyText` stand for the single POST's response.  On HTTP 200 or
201 the run id is extracted with default "N/A" and the state with default
"QUEUED", both are printed, and the method returns; on any other status the
HTTP status and response text are printed and the process exits 1. -/
def trigger_dag (dag_id : String) (status : Nat) (body : TriggerBody)
    (bodyText : String) : TriggerOutcome :=
  let pre := ["Triggering DAG '" ++ dag_id ++ "'..."]
  if status = 200 ∨ status = 201 then
    let dag_run_id := body.dag_run_id.getD "N/A"
    let st := body.state.getD "QUEUED"
    ⟨pre ++ ["DAG Run ID: " ++ dag_run_id, "Status: " ++ st],
     some dag_run_id, some st, 1, .ret⟩
  else
    ⟨pre ++ ["Failed to trigger DAG: HTTP " ++ toString status, bodyText],
     none, none, 1, .exit 1⟩

/-- The attribute names `__init__` sets on an `AirflowCLI` instance
(lines 11–24). -/
def airflowCLIInstanceAttrs : List String :=
  ["airflow_url", "username", "password", "keycloak_url", "realm",
   "client_id", "client_secret", "access_token", "headers"]

/-- The names defined in the body of `class AirflowCLI` (lines 10–72):
`get_dag_status` is not among them — its `def` sits at module level,
column 0, below the class (line 74). -/
def airflowCLIClassAttrs : List String :=
  ["__init__", "authenticate", "trigger_dag"]

/-- The names defined at module level (column 0) in the file. -/
def moduleLevelDefs : List String :=
  ["AirflowCLI", "get_dag_status", "main"]

/-- The outcome of a Python attribute lookup. -/
inductive PyLookup where
  | found
  | attributeError
  deriving DecidableEq, Repr

/-- Python attribute lookup `cli.name` for an `AirflowCLI` instance: the
instance dictionary first, then the class dictionary; any other name raises
`AttributeError`.  Module-level functions are not reachable through the
instance. -/
def resolveAttr (name : String) : PyLookup :=
  if airflowCLIInstanceAttrs.contains name || airflowCLIClassAttrs.contains name
  then .found
  else .attributeError

/-- The two mutually exclusive CLI modes (`--trigger` and `--get-status`). -/
inductive Mode where
  | trigger
  | getStatus
  deriving DecidableEq, Repr

/-- The client calls `main` can make after authentication. -/
inductive MainEvent where
  | didTrigger
  | didStatus
  deriving DecidableEq, Repr

/-- The mode dispatch of `main` (lines 149–154): each mode runs exactly its
own client call. -/
def mainDispatch : Mode → List MainEvent
  | .trigger => [.didTrigger]
  | .getStatus => [.didStatus]

/-- Whether `p` is a prefix of `l`, over character lists. -/
def prefAt : List Char → List Char → Bool
  | [], _ => true
  | _ :: _, [] => false
  | a :: p, b :: l => a == b && prefAt p l

/-- Whether `p` occurs contiguously in `l`, over character lists. -/
def occursIn (p : List Char) : List Char → Bool
  | [] => prefAt p []
  | b :: l => prefAt p (b :: l) || occursIn p l

/-- Whether the string `pat` occurs contiguously in `s`. -/
def mentions (pat s : String) : Bool :=
  occursIn pat.toList s.toList

/-- Modelled from the spec: the terminal state vocabulary of the Status
Poller — succeeded (Airflow label "success"), failed, upstream_failed and
skipped are terminal; everything else is non-terminal. -/
def specTerminal (s : String) : Bool :=
  s = "success" || s = "failed" || s = "upstream_failed" || s = "skipped"

/-- Modelled from the spec: the Outcome Mapper `mapOutcome(terminalState)`
— success maps to exit code 0, failed and upstream_failed to 1, anything
else (skipped included) to 2. -/
def mapOutcome (s : String) : Nat :=
  if s = "success" then 0
  else if s = "failed" || s = "upstream_failed" then 1
  else 2

/-- Modelled from the spec: the minutes-plus-seconds elapsed-time rendering
of the final report ("2m 5s" for 125 seconds). -/
def specElapsedRender (e : Nat) : String :=
  toString (e / 60) ++ "m " ++ toString (e % 60) ++ "s"

/-- C8: for a trigger response with HTTP status 200 or 201 the trigger
succeeds (normal return) after its single request, extracting the run id
and initial state from the body; an absent run-id field yields the sentinel
marker "N/A" rather than a failure, and a present field is carried
verbatim, so the body field `dag_run_id = "manual__2024"` gives run id
"manual__2024". -/
theorem trigger_success_extracts_run_id (dag_id bodyText : String)
    (status : Nat) (body : TriggerBody)
    (h : status = 200 ∨ status = 201) :
    (trigger_dag dag_id status body bodyText).result = ProcResult.ret ∧
    (trigger_dag dag_id status body bodyText).runId
        = some (body.dag_run_id.getD "N/A") ∧
    (trigger_dag dag_id status body bodyText).runState
        = some (body.state.getD "QUEUED") ∧
    (trigger_dag dag_id status body bodyText).requestCount = 1 ∧
    (body.dag_run_id = none →
        (trigger_dag dag_id status body bodyText).runId = some "N/A") ∧
    (body.dag_run_id = some "manual__2024" →
        (trigger_dag dag_id status body bodyText).runId
          = some "manual__2024") := by
  unfold trigger_dag
  rw [if_pos h]
  refine ⟨rfl, rfl, rfl, rfl, ?_, ?_⟩ <;> intro hid <;> rw [hid] <;> rfl

/-- C8 witness: the trigger response {"dag_run_id": "manual__2024",
"state": "queued"} with HTTP 200. -/
theorem trigger_success_extracts_run_id_witness :
    (trigger_dag "example_dag" 200 ⟨some "manual__2024", some "queued"⟩
        "").result = ProcResult.ret ∧
    (trigger_dag "example_dag" 200 ⟨some "manual__2024", some "queued"⟩
        "").runId = some ((some "manual__2024").getD "N/A") ∧
    (trigger_dag "example_dag" 200 ⟨some "manual__2024", some "queued"⟩
        "").runState = some ((some "queued").getD "QUEUED") ∧
    (trigger_dag "example_dag" 200 ⟨some "manual__2024", some "queued"⟩
        "").requestCount = 1 ∧
    ((some "manual__2024" : Option String) = none →
        (trigger_dag "example_dag" 200 ⟨some "manual__2024", some "queued"⟩
          "").runId = some "N/A") ∧
    ((some "manual__2024" : Option String) = some "manual__2024" →
        (trigger_dag "example_dag" 200 ⟨some "manual__2024", some "queued"⟩
          "").runId = some "manual__2024") :=
  trigger_success_extracts_run_id "example_dag" "" 200
    ⟨some "manual__2024", some "queued"⟩ (Or.inl rfl)

/-- C9: a trigger response whose HTTP status is neither 200 nor 201 is
fatal: the routine reports the HTTP status and the response body, issues no
further request, and the process exits with code 1; and trigger mode never
runs the status routine, so no monitoring begins. -/
theorem trigger_failure_exits_nonzero (dag_id bodyText : String)
    (status : Nat) (body : TriggerBody)
    (h200 : status ≠ 200) (h201 : status ≠ 201) :
    (trigger_dag dag_id status body bodyText).result = ProcResult.exit 1 ∧
    (trigger_dag dag_id status body bodyText).trace
        = ["Triggering DAG '" ++ dag_id ++ "'...",
           "Failed to trigger DAG: HTTP " ++ toString status, bodyText] ∧
    (trigger_dag dag_id status body bodyText).requestCount = 1 ∧
    MainEvent.didStatus ∉ mainDispatch Mode.trigger := by
  have h : ¬(status = 200 ∨ status = 201) := by
    rintro (rfl | rfl)
    · exact h200 rfl
    · exact h201 rfl
  unfold trigger_dag
  rw [if_neg h]
  exact ⟨rfl, rfl, rfl, by decide⟩

/-- C9 witness: a trigger response with HTTP 500. -/
theorem trigger_failure_exits_nonzero_witness :
    (trigger_dag "example_dag" 500 ⟨none, none⟩ "oops").result
        = ProcResult.exit 1 ∧
    (trigger_dag "example_dag" 500 ⟨none, none⟩ "oops").trace
        = ["Triggering DAG '" ++ "example_dag" ++ "'...",
           "Failed to trigger DAG: HTTP " ++ toString 500, "oops"] ∧
    (trigger_dag "example_dag" 500 ⟨none, none⟩ "oops").requestCount = 1 ∧
    MainEvent.didStatus ∉ mainDispatch Mode.trigger :=
  trigger_failure_exits_nonzero "example_dag" "oops" 500 ⟨none, none⟩
    (by decide) (by decide)

/-- C10: an HTTP 200 status response whose body has a missing or empty
`dag_runs` collection makes the routine print "No DAG runs found for this
DAG." and return normally: no exception, no exit call, and status mode's
process exit code is 0. -/
theorem no_runs_found_returns_normally (dag_id bodyText : String)
    (runs? : Option (List DagRun)) (elapsed : Nat)
    (h : runs? = none ∨ runs? = some []) :
    (get_dag_status dag_id (FetchResult.ok 200 bodyText runs?) elapsed).trace
        = ["Fetching latest DAG run status for '" ++ dag_id ++ "'...",
           "No DAG runs found for this DAG."] ∧
    (get_dag_status dag_id (FetchResult.ok 200 bodyText runs?) elapsed).result
        = ProcResult.ret ∧
    exitCodeOfStatusMode dag_id (FetchResult.ok 200 bodyText runs?) elapsed
        = 0 := by
  rcases h with h | h <;> subst h <;> exact ⟨rfl, rfl, rfl⟩

/-- C10 witness: an HTTP 200 response whose body lacks the `dag_runs`
key. -/
theorem no_runs_found_returns_normally_witness :
    (get_dag_status "example_dag" (FetchResult.ok 200 "" none) 0).trace
        = ["Fetching latest DAG run status for '" ++ "example_dag" ++ "'...",
           "No DAG runs found for this DAG."] ∧
    (get_dag_status "example_dag" (FetchResult.ok 200 "" none) 0).result
        = ProcResult.ret ∧
    exitCodeOfStatusMode "example_dag" (FetchResult.ok 200 "" none) 0 = 0 :=
  no_runs_found_returns_normally "example_dag" "" none 0 (Or.inl rfl)

/-- C1 counterexample: a status sequence whose only state is the
non-terminal "running" — the routine nevertheless returns normally, so
"the monitor does not return while all observed states are non-terminal"
fails: the code has no polling loop at all. -/
theorem status_returns_on_nonterminal_state :
    specTerminal "running" = false ∧
    (get_dag_status "example_dag"
        (FetchResult.ok 200 "" (some [⟨"run1", "running", "2024-01-01"⟩]))
        3).result = ProcResult.ret := by
  exact ⟨rfl, rfl⟩

/-- C1 amended: the status routine performs exactly one fetch and always
finishes — on any successful fetch with a nonempty run list it returns
normally whatever the observed state, terminal or not; its return never
depends on observing a terminal state, and there is no iteration to bound
or time out. -/
theorem status_single_fetch_always_returns (dag_id bodyText : String)
    (r : DagRun) (rest : List DagRun) (elapsed : Nat) :
    (get_dag_status dag_id (FetchResult.ok 200 bodyText (some (r :: rest)))
        elapsed).result = ProcResult.ret ∧
    (get_dag_status dag_id (FetchResult.ok 200 bodyText (some (r :: rest)))
        elapsed).fetchCount = 1 := by
  exact ⟨rfl, rfl⟩

/-- C3 counterexample: a poll whose fetch yields HTTP 500, and one whose
fetch raises — in both cases the routine does not log-and-continue: it
terminates the process with exit code 1, so "a failed fetch never
terminates the monitor" fails. -/
theorem fetch_failure_terminates_process :
    (get_dag_status "example_dag" (FetchResult.ok 500 "server error" none)
        0).result = ProcResult.exit 1 ∧
    (get_dag_status "example_dag" (FetchResult.exn "connection refused")
        0).result = ProcResult.exit 1 := by
  exact ⟨rfl, rfl⟩

/-- C3 amended: when the single status fetch fails — a non-200 HTTP
response or a raised exception — the routine prints the failure and exits
the process with code 1; it never retries (each call issues exactly one
request). -/
theorem fetch_failure_fatal (dag_id bodyText msg : String) (status : Nat)
    (runs? : Option (List DagRun)) (elapsed : Nat) (h : status ≠ 200) :
    (get_dag_status dag_id (FetchResult.ok status bodyText runs?)
        elapsed).result = ProcResult.exit 1 ∧
    (get_dag_status dag_id (FetchResult.ok status bodyText runs?)
        elapsed).trace
      = ["Fetching latest DAG run status for '" ++ dag_id ++ "'...",
         "Failed to retrieve DAG status: HTTP " ++ toString status,
         bodyText] ∧
    (get_dag_status dag_id (FetchResult.ok status bodyText runs?)
        elapsed).fetchCount = 1 ∧
    (get_dag_status dag_id (FetchResult.exn msg) elapsed).result
      = ProcResult.exit 1 := by
  simp [get_dag_status, if_pos h]

/-- C3 amended witness: an HTTP 500 response and a raised connection
error. -/
theorem fetch_failure_fatal_witness :
    (get_dag_status "example_dag" (FetchResult.ok 500 "server error" none)
        7).result = ProcResult.exit 1 ∧
    (get_dag_status "example_dag" (FetchResult.ok 500 "server error" none)
        7).trace
      = ["Fetching latest DAG run status for '" ++ "example_dag" ++ "'...",
         "Failed to retrieve DAG status: HTTP " ++ toString 500,
         "server error"] ∧
    (get_dag_status "example_dag" (FetchResult.ok 500 "server error" none)
        7).fetchCount = 1 ∧
    (get_dag_status "example_dag" (FetchResult.exn "connection refused")
        7).result = ProcResult.exit 1 :=
  fetch_failure_fatal "example_dag" "server error" "connection refused" 500
    none 7 (by decide)

/-- C5 counterexample: over the status sequence [running, running, running,
success] the routine observes only the first state — its entire output,
printed lines and spinner overwrites alike, never mentions "success", and
its only final-report line names "running"; so "exactly one state-change
notification (to running) plus one terminal report" fails: there is no
state-change notification and no terminal report at all. -/
theorem session_never_reports_success :
    specTerminal "running" = false ∧ specTerminal "success" = true ∧
    (get_dag_status "example_dag"
        (FetchResult.ok 200 "" (some [⟨"run1", "running", "2024-01-01"⟩]))
        3).trace.filter (fun l => mentions "Final Status: " l)
      = ["Final Status: running (elapsed: 3s)"] ∧
    ((get_dag_status "example_dag"
        (FetchResult.ok 200 "" (some [⟨"run1", "running", "2024-01-01"⟩]))
        3).trace ++
      (get_dag_status "example_dag"
        (FetchResult.ok 200 "" (some [⟨"run1", "running", "2024-01-01"⟩]))
        3).spinnerWrites).all (fun l => !(mentions "success" l)) = true := by
  decide

/-- C5 amended: the routine keeps no previous-state memory and emits no
state-change notification lines: its complete output for a session is the
fetch banner, ten spinner overwrites of the single observed state, the
clear line, and three report lines naming the first fetched run — later
states of the sequence are never observed, so no notification is ever
emitted, duplicated or otherwise. -/
theorem no_previous_state_memory (dag_id bodyText : String) (r : DagRun)
    (rest : List DagRun) (elapsed : Nat) :
    (get_dag_status dag_id (FetchResult.ok 200 bodyText (some (r :: rest)))
        elapsed).trace
      = ["Fetching latest DAG run status for '" ++ dag_id ++ "'...",
         clearLine,
         "DAG Run ID: " ++ r.dag_run_id,
         "Execution Date: " ++ r.execution_date,
         "Final Status: " ++ r.state ++ " (elapsed: " ++
           elapsedPart elapsed ++ ")"] ∧
    (get_dag_status dag_id (FetchResult.ok 200 bodyText (some (r :: rest)))
        elapsed).spinnerWrites = spinnerWritesFor r.state := by
  exact ⟨rfl, rfl⟩

/-- C6 counterexample: the only sleeps the status routine performs are the
ten 0.3-second (300 ms) spinner sleeps of its single fetch — not a
10-second interval, and not between poll iterations, of which there is only
one. -/
theorem spinner_sleeps_not_polling_interval :
    (get_dag_status "example_dag"
        (FetchResult.ok 200 "" (some [⟨"run1", "running", "2024-01-01"⟩]))
        3).sleepsMs = List.replicate 10 300 ∧
    (300 : Nat) ≠ 10000 ∧
    (get_dag_status "example_dag"
        (FetchResult.ok 200 "" (some [⟨"run1", "running", "2024-01-01"⟩]))
        3).fetchCount = 1 := by
  exact ⟨rfl, by decide, rfl⟩

/-- C6 amended: within its single fetch the routine sleeps a fixed
0.3 seconds between each of exactly ten spinner renders, and this is its
sole pacing; there are no repeated poll iterations to pace. -/
theorem pacing_is_ten_short_sleeps (dag_id bodyText : String) (r : DagRun)
    (rest : List DagRun) (elapsed : Nat) :
    (get_dag_status dag_id (FetchResult.ok 200 bodyText (some (r :: rest)))
        elapsed).sleepsMs = List.replicate 10 300 ∧
    (get_dag_status dag_id (FetchResult.ok 200 bodyText (some (r :: rest)))
        elapsed).spinnerWrites.length = 10 ∧
    (get_dag_status dag_id (FetchResult.ok 200 bodyText (some (r :: rest)))
        elapsed).fetchCount = 1 := by
  exact ⟨rfl, rfl, rfl⟩

/-- C7 counterexample: with the clock advanced 125 seconds before the final
report, the rendered elapsed time is "125s" — plain whole seconds — while
the claimed minutes-plus-seconds rendering of 125 is "2m 5s". -/
theorem elapsed_rendered_as_plain_seconds :
    (get_dag_status "example_dag"
        (FetchResult.ok 200 "" (some [⟨"run1", "success", "2024-01-01"⟩]))
        125).trace.getLast?
      = some "Final Status: success (elapsed: 125s)" ∧
    specElapsedRender 125 = "2m 5s" ∧
    elapsedPart 125 ≠ specElapsedRender 125 := by
  refine ⟨by decide, by decide, by decide⟩

/-- C7 amended: the final report renders the total elapsed time as a plain
whole-second count suffixed with "s": the last printed line is always
"Final Status: (state) (elapsed: (seconds)s)", and for a clock advancing
125 seconds the elapsed portion reads "125s", not "2m 5s". -/
theorem final_report_elapsed_format (dag_id bodyText : String) (r : DagRun)
    (rest : List DagRun) (elapsed : Nat) :
    (get_dag_status dag_id (FetchResult.ok 200 bodyText (some (r :: rest)))
        elapsed).trace.getLast?
      = some ("Final Status: " ++ r.state ++ " (elapsed: " ++
          elapsedPart elapsed ++ ")") ∧
    elapsedPart 125 = "125s" ∧
    elapsedPart 125 ≠ "2m 5s" := by
  refine ⟨rfl, by decide, by decide⟩

/-- C2 counterexample: after the status routine reports the terminal state
"failed" and returns, the process exits 0 — the spec's outcome mapping
requires exit code 1 for "failed", so the claimed mapping does not exist in
the code. -/
theorem failed_state_exit_code_zero :
    mapOutcome "failed" = 1 ∧
    exitCodeOfStatusMode "example_dag"
        (FetchResult.ok 200 "" (some [⟨"run1", "failed", "2024-01-01"⟩]))
        5 = 0 := by
  decide

/-- C2 amended: the program maps no terminal state to a distinguished exit
code: whenever the status routine returns normally the process exits 0
regardless of the reported state ("failed", "skipped" and unrecognized
labels included), every failing path exits 1, and no execution produces
exit code 2 or a warning about an unexpected state. -/
theorem no_outcome_mapping (dag_id : String) (elapsed : Nat) :
    (∀ (bodyText : String) (r : DagRun) (rest : List DagRun),
        exitCodeOfStatusMode dag_id
          (FetchResult.ok 200 bodyText (some (r :: rest))) elapsed = 0) ∧
    (∀ fetch, exitCodeOfStatusMode dag_id fetch elapsed ≠ 2) := by
  constructor
  · intro bodyText r rest
    rfl
  · intro fetch
    cases fetch with
    | exn msg => simp [exitCodeOfStatusMode, get_dag_status]
    | ok status bt runs? =>
      by_cases h : status = 200
      · subst h
        cases runs? with
        | none => simp [exitCodeOfStatusMode, get_dag_status]
        | some l =>
          cases l with
          | nil => simp [exitCodeOfStatusMode, get_dag_status]
          | cons a t => simp [exitCodeOfStatusMode, get_dag_status]
      · simp [exitCodeOfStatusMode, get_dag_status, h]

/-- C4: `get_dag_status` is defined at module level (line 74), not inside
`class AirflowCLI`, so the attribute lookup `cli.get_dag_status` performed
by status mode (line 152) finds the name neither among the instance
attributes nor among the class attributes and raises `AttributeError`: the
call never resolves to a bound method. -/
theorem get_dag_status_lookup_fails :
    resolveAttr "get_dag_status" = PyLookup.attributeError ∧
    moduleLevelDefs.contains "get_dag_status" = true ∧
    airflowCLIClassAttrs.contains "get_dag_status" = false ∧
    airflowCLIInstanceAttrs.contains "get_dag_status" = false := by
  decide
